import Mathlib

/-!
# Selector-extraction pipeline: shallow embedding

This file embeds the selector-testing pipeline of
`src/scripts/selector_tester.py` in Lean 4 and proves the specified
properties about it.

The browser-automation driver (Playwright) is modelled as an oracle
record `Driver`: it fixes, for one run, the outcome of navigation, of
the Greenhouse iframe lookup, of the readiness waits, and the answer of
every element query against the main page or against the frame.  All
pipeline functions are pure functions of this oracle, mirroring the
Python control flow statement by statement.

Faithfulness notes, traced from the source:
* `SelectorParser.extract_element` wraps the whole query in
  `try/except Exception`, so a driver-level error during extraction is
  converted into an `ElementResult` and never propagates
  (`selector_tester.py` lines 73-105).
* `GreenhouseParser.setup` wraps its iframe lookup in
  `try/except Exception` and always returns a context, so setup never
  raises (lines 171-195).
* `DefaultParser.wait_for_content` and `GreenhouseParser.wait_for_content`
  catch only `PlaywrightTimeoutError`; a non-timeout driver error
  propagates out of `wait_for_content` into `SelectorParser.parse`
  (lines 158-166, 197-210).  `AngularParser.wait_for_content` catches
  both `PlaywrightTimeoutError` and `Exception`, so it never raises
  (lines 241-285).  The fields `pageWaitErr` / `frameWaitErr` model
  exactly those escaping non-timeout errors.
* The back-fill loop in `SelectorParser.parse` (lines 127-136) reads
  `self.parser_type`, an attribute that `SelectorParser` never sets, so
  constructing the synthetic result for a missing selector raises
  `AttributeError`; `backfill_results` models this.
* In `test_html_selectors` (lines 349-437), a hard navigation failure
  short-circuits the run with one uniform failure result per selector;
  any exception escaping `parse` is caught by the outer handler, which
  back-fills one "Unexpected error" result per selector because the
  local `results` list is still empty at that point (lines 367, 420-432).
-/

/-- The `ParserType` enumeration (`selector_tester.py` lines 23-28). -/
inductive ParserType where
  | DEFAULT
  | GREENHOUSE
  | ANGULAR
deriving DecidableEq, Repr

/-- The string value of each enum member (`"default"`, `"greenhouse"`,
`"angular"`). -/
def ParserType.value : ParserType → String
  | .DEFAULT => "default"
  | .GREENHOUSE => "greenhouse"
  | .ANGULAR => "angular"

/-- The `ElementResult` dataclass (lines 31-41): one outcome per
attempted selector. -/
structure ElementResult where
  selector : String
  found : Bool
  text_content : Option String
  html_content : Option String
  error_message : Option String
  context : String
deriving DecidableEq, Repr

/-- The `ParseContext` dataclass (lines 43-54).  The page handle is a
per-run singleton and carries no information, so only the presence of a
frame handle and the parser type are modelled; `frame = true` means the
context holds a frame handle, and the `target` property then selects
the frame for queries. -/
structure ParseContext where
  frame : Bool
  parser_type : ParserType
deriving DecidableEq, Repr

/-- Outcome of one `wait_for_selector` query followed by
`inner_text` / `inner_html`: a matched element with its contents, no
element (`None` within the timeout), or a raised driver error whose
message is `msg`. -/
inductive QueryResult where
  | foundElem (text : String) (html : String)
  | noElement
  | queryErr (msg : String)
deriving DecidableEq, Repr

/-- Outcome of navigation (`page.goto`, lines 378-400): success, a
`PlaywrightTimeoutError` (non-fatal), or a hard failure with message
`msg` (fatal). -/
inductive NavResult where
  | ok
  | timeout
  | hardErr (msg : String)
deriving DecidableEq, Repr

/-- Outcome of `GreenhouseParser.setup`'s iframe lookup (lines 175-195):
the `#grnhse_iframe` container is found and its content frame obtained;
the container is found but `content_frame()` returns `None`; or the
container is not found (the lookup times out or errors with message
`msg`). -/
inductive GreenhouseSetupResult where
  | frameObtained
  | containerNoFrame
  | noContainer (msg : String)
deriving DecidableEq, Repr

/-- The driver oracle: the browser's fixed answers for one run.
`pageWaitErr` / `frameWaitErr` are `some msg` when
`wait_for_load_state` on that target raises a non-timeout error (the
only kind that escapes `wait_for_content` in the Default and Greenhouse
parsers).  `frameQuery` / `pageQuery` give the answer of an element
query with a given selector and timeout against the frame or the main
page. -/
structure Driver where
  nav : NavResult
  greenhouseSetup : GreenhouseSetupResult
  pageWaitErr : Option String
  frameWaitErr : Option String
  frameQuery : String → Nat → QueryResult
  pageQuery : String → Nat → QueryResult

/-- `SelectorParser._get_context_name` (lines 107-111). -/
def get_context_name (ctx : ParseContext) : String :=
  if ctx.frame then ctx.parser_type.value ++ "_frame" else ctx.parser_type.value

/-- The query issued against `context.target` (lines 52-54, 78): the
frame when the context holds one, otherwise the main page. -/
def target_query (d : Driver) (ctx : ParseContext) (selector : String)
    (timeout : Nat) : QueryResult :=
  if ctx.frame then d.frameQuery selector timeout else d.pageQuery selector timeout

/-- `SelectorParser.extract_element` (lines 73-105): the whole body is
inside `try/except Exception`, so every driver answer, including a
raised error, is converted into an `ElementResult`. -/
def extract_element (d : Driver) (ctx : ParseContext) (selector : String)
    (timeout : Nat) : ElementResult :=
  match target_query d ctx selector timeout with
  | .foundElem t h =>
      ⟨selector, true, some t, some h, none, get_context_name ctx⟩
  | .noElement =>
      ⟨selector, false, none, none, some "Element not found", get_context_name ctx⟩
  | .queryErr m =>
      ⟨selector, false, none, none, some m, get_context_name ctx⟩

/-- One query attempt, for stating which targets were queried and with
which timeouts: `on_frame` records whether the attempt went to the
frame, `timeout` the timeout passed to `wait_for_selector`. -/
structure QueryAttempt where
  on_frame : Bool
  timeout : Nat
deriving DecidableEq, Repr

/-- `GreenhouseParser.extract_element` (lines 212-230), instrumented
with the list of query attempts it makes (target and timeout of each),
in order.  If the context has a frame, the frame is tried first with
the caller's timeout; on a non-found result the same selector is
retried against the main page with timeout 2000.  Without a frame it is
the base `extract_element`. -/
def greenhouse_extract (d : Driver) (ctx : ParseContext) (selector : String)
    (timeout : Nat) : ElementResult × List QueryAttempt :=
  if ctx.frame then
    let r := extract_element d ctx selector timeout
    if r.found then (r, [⟨true, timeout⟩])
    else
      (extract_element d ⟨false, ctx.parser_type⟩ selector 2000,
        [⟨true, timeout⟩, ⟨false, 2000⟩])
  else (extract_element d ctx selector timeout, [⟨ctx.frame, timeout⟩])

/-- The `setup` method of the parser selected for the run: the Default
and Angular parsers return a frameless context with their parser type
(lines 153-156, 236-239); the Greenhouse parser returns a frame context
exactly when the iframe lookup obtained a content frame (lines 171-195). -/
def setup (d : Driver) (pt : ParserType) : ParseContext :=
  match pt with
  | .GREENHOUSE =>
      match d.greenhouseSetup with
      | .frameObtained => ⟨true, .GREENHOUSE⟩
      | .containerNoFrame => ⟨false, .GREENHOUSE⟩
      | .noContainer _ => ⟨false, .GREENHOUSE⟩
  | .DEFAULT => ⟨false, .DEFAULT⟩
  | .ANGULAR => ⟨false, .ANGULAR⟩

/-- The error, if any, escaping `wait_for_content`: the Default parser
waits on the page (lines 158-166); the Greenhouse parser waits on the
frame when the context has one, else on the page (lines 197-210); the
Angular parser catches every exception and never raises (lines 241-285).
Timeouts are caught in all three, so only non-timeout errors appear. -/
def wait_err (d : Driver) (pt : ParserType) (ctx : ParseContext) : Option String :=
  match pt with
  | .DEFAULT => d.pageWaitErr
  | .GREENHOUSE => if ctx.frame then d.frameWaitErr else d.pageWaitErr
  | .ANGULAR => none

/-- The per-selector extraction call made by `parse` (line 120), which
passes no timeout and therefore uses each parser's default: 5000 for the
Default and Greenhouse parsers (lines 74, 213), 10000 for the Angular
parser (line 291). -/
def extract_one (d : Driver) (pt : ParserType) (ctx : ParseContext)
    (selector : String) : ElementResult :=
  match pt with
  | .DEFAULT => extract_element d ctx selector 5000
  | .GREENHOUSE => (greenhouse_extract d ctx selector 5000).1
  | .ANGULAR => extract_element d ctx selector 10000

/-- The back-fill loop of `SelectorParser.parse`'s `except` branch
(lines 127-136): for each selector, in input order, that has no result
yet, it constructs a synthetic failure result whose `context` reads
`self.parser_type.value` — but `SelectorParser` never sets a
`parser_type` attribute, so that read raises `AttributeError`, which
propagates out of `parse`.  Selectors already present are skipped. -/
def backfill_results (results : List ElementResult) (selectors : List String) :
    Except String (List ElementResult) :=
  match selectors with
  | [] => .ok results
  | s :: rest =>
      if results.any (fun r => r.selector == s) then
        backfill_results results rest
      else
        .error "AttributeError: SelectorParser object has no attribute parser_type"

/-- `SelectorParser.parse` (lines 113-138).  Setup never raises and
extraction converts every failure into a result, so the only exception
that can reach `parse`'s `except` branch comes from `wait_for_content`,
at which point `self.results` is still empty; the branch then runs the
back-fill loop on the empty result list.  A raised exception is the
`Except.error` case. -/
def parse (d : Driver) (pt : ParserType) (selectors : List String) :
    Except String (List ElementResult) :=
  match wait_err d pt (setup d pt) with
  | some _ => backfill_results [] selectors
  | none => .ok (selectors.map (fun s => extract_one d pt (setup d pt) s))

/-- `test_html_selectors` (lines 349-437).  A hard navigation failure
returns one uniform failure result per selector with context
`"error"` and no extraction (lines 388-400).  Otherwise the run
delegates to `parse`; if `parse` raises, the outer handler (lines
420-432) sees the still-empty local `results` list and back-fills one
"Unexpected error" failure result per selector with context `"error"`. -/
def test_html_selectors (d : Driver) (pt : ParserType)
    (selectors : List String) : List ElementResult :=
  match d.nav with
  | .hardErr m =>
      selectors.map (fun s =>
        ⟨s, false, none, none, some ("Navigation failed: " ++ m), "error"⟩)
  | _ =>
      match parse d pt selectors with
      | .ok rs => rs
      | .error e =>
          selectors.map (fun s =>
            ⟨s, false, none, none, some ("Unexpected error: " ++ e), "error"⟩)

/-! ## The parser registry (`ParserFactory`, lines 297-317) -/

/-- The parser classes that can be bound in the registry; `Custom n`
stands for an externally registered class. -/
inductive ParserClass where
  | DefaultParser
  | GreenhouseParser
  | AngularParser
  | Custom (id : Nat)
deriving DecidableEq, Repr

/-- The registry dictionary `ParserFactory._parsers`, as an association
list with Python-dict semantics (at most one binding per key). -/
abbrev Registry := List (ParserType × ParserClass)

/-- The initial `_parsers` table (lines 300-304). -/
def initial_parsers : Registry :=
  [(.DEFAULT, .DefaultParser), (.GREENHOUSE, .GreenhouseParser),
    (.ANGULAR, .AngularParser)]

/-- Dictionary lookup, `_parsers.get(parser_type)` without default. -/
def registry_get (reg : Registry) (pt : ParserType) : Option ParserClass :=
  match reg with
  | [] => none
  | (k, v) :: rest => if k = pt then some v else registry_get rest pt

/-- `ParserFactory.register_parser_class` (lines 314-317): dictionary
assignment `_parsers[parser_type] = parser_class`, overwriting any
existing binding for the key. -/
def register_parser_class (reg : Registry) (pt : ParserType) (c : ParserClass) :
    Registry :=
  match reg with
  | [] => [(pt, c)]
  | (k, v) :: rest =>
      if k = pt then (pt, c) :: rest else (k, v) :: register_parser_class rest pt c

/-- The class-resolution step of `ParserFactory.create_parser_class`
(line 311): `_parsers.get(parser_type, DefaultParser)`. -/
def create_parser_class (reg : Registry) (pt : ParserType) : ParserClass :=
  (registry_get reg pt).getD .DefaultParser

/-! ## Helper lemmas -/

lemma extract_element_selector (d : Driver) (ctx : ParseContext) (s : String)
    (t : Nat) : (extract_element d ctx s t).selector = s := by
  unfold extract_element
  cases target_query d ctx s t <;> rfl

lemma greenhouse_extract_selector (d : Driver) (ctx : ParseContext) (s : String)
    (t : Nat) : (greenhouse_extract d ctx s t).1.selector = s := by
  unfold greenhouse_extract
  by_cases hf : ctx.frame <;>
    simp [hf, extract_element_selector]
  split <;> simp [extract_element_selector]

lemma extract_one_selector (d : Driver) (pt : ParserType) (ctx : ParseContext)
    (s : String) : (extract_one d pt ctx s).selector = s := by
  cases pt <;>
    simp [extract_one, extract_element_selector, greenhouse_extract_selector]

lemma parse_ok_selectors (d : Driver) (pt : ParserType)
    (selectors : List String) (rs : List ElementResult)
    (h : parse d pt selectors = .ok rs) :
    rs.map ElementResult.selector = selectors := by
  unfold parse at h
  cases hw : wait_err d pt (setup d pt) with
  | some m =>
      rw [hw] at h
      cases selectors with
      | nil =>
          simp [backfill_results] at h
          simp [← h]
      | cons s rest => simp [backfill_results] at h
  | none =>
      rw [hw] at h
      simp only [Except.ok.injEq] at h
      subst h
      simp [List.map_map, Function.comp_def, extract_one_selector]

/-! ## Claim theorems -/

/-- C1: for every run (any driver behavior, any selector list, any
mode), the returned outcome list has one entry per input selector, in
input order — its selectors read back exactly as the input list — so in
particular its length equals the input length, on the normal path, on a
navigation failure, and on an error escaping the parse pipeline alike. -/
theorem run_one_outcome_per_selector (d : Driver) (pt : ParserType)
    (selectors : List String) :
    (test_html_selectors d pt selectors).map ElementResult.selector = selectors := by
  unfold test_html_selectors
  cases d.nav with
  | hardErr m => simp [Function.comp_def]
  | ok =>
      cases hp : parse d pt selectors with
      | ok rs => simpa using parse_ok_selectors d pt selectors rs hp
      | error e => simp [Function.comp_def]
  | timeout =>
      cases hp : parse d pt selectors with
      | ok rs => simpa using parse_ok_selectors d pt selectors rs hp
      | error e => simp [Function.comp_def]

/-- C9: for the empty selector list, every mode's pipeline returns the
empty outcome list and the run completes normally (the parse pipeline
returns a normal, non-exceptional result, and nothing is appended). -/
theorem empty_selector_list_empty_run (d : Driver) (pt : ParserType) :
    parse d pt [] = Except.ok [] ∧ test_html_selectors d pt [] = [] := by
  have hp : parse d pt [] = Except.ok [] := by
    unfold parse
    cases wait_err d pt (setup d pt) <;> simp [backfill_results]
  refine ⟨hp, ?_⟩
  unfold test_html_selectors
  cases d.nav <;> simp [hp]

/-- C10: registry round-trip and default fallback. After
`register_parser_class reg m C`, resolving `m` yields `C` — for every prior
registry state `reg`, so any prior binding for `m`, built-in ones
included, is overwritten — and resolving a mode with no binding yields
the Default parser class. -/
theorem registry_roundtrip_and_default (reg : Registry) (pt : ParserType)
    (c : ParserClass) :
    create_parser_class (register_parser_class reg pt c) pt = c ∧
    (∀ pt' : ParserType, registry_get reg pt' = none →
      create_parser_class reg pt' = ParserClass.DefaultParser) := by
  constructor
  · induction reg with
    | nil => simp [register_parser_class, create_parser_class, registry_get]
    | cons kv rest ih =>
        obtain ⟨k, v⟩ := kv
        by_cases hk : k = pt
        · subst hk
          simp [register_parser_class, create_parser_class, registry_get]
        · simpa [register_parser_class, hk, create_parser_class, registry_get] using ih
  · intro pt' h
    simp [create_parser_class, h]

/-- Witness for C10: registering a custom class over the built-in
binding for the Default mode resolves to the custom class, and an empty
registry resolves any mode to the Default parser class. -/
theorem registry_roundtrip_and_default_witness :
    create_parser_class
        (register_parser_class initial_parsers ParserType.DEFAULT (ParserClass.Custom 7))
        ParserType.DEFAULT = ParserClass.Custom 7 ∧
    create_parser_class [] ParserType.ANGULAR = ParserClass.DefaultParser :=
  ⟨(registry_roundtrip_and_default initial_parsers ParserType.DEFAULT
      (ParserClass.Custom 7)).1,
    (registry_roundtrip_and_default [] ParserType.DEFAULT
      (ParserClass.Custom 7)).2 ParserType.ANGULAR rfl⟩

lemma extract_element_context (d : Driver) (ctx : ParseContext) (s : String)
    (t : Nat) : (extract_element d ctx s t).context = get_context_name ctx := by
  unfold extract_element
  cases target_query d ctx s t <;> rfl

lemma greenhouse_extract_no_frame (d : Driver) (ctx : ParseContext) (s : String)
    (t : Nat) (h : ctx.frame = false) :
    greenhouse_extract d ctx s t = (extract_element d ctx s t, [⟨false, t⟩]) := by
  unfold greenhouse_extract
  simp [h]

lemma greenhouse_extract_frame_found (d : Driver) (ctx : ParseContext)
    (s : String) (t : Nat) (hf : ctx.frame = true)
    (h1 : (extract_element d ctx s t).found = true) :
    greenhouse_extract d ctx s t = (extract_element d ctx s t, [⟨true, t⟩]) := by
  unfold greenhouse_extract
  simp [hf, h1]

lemma greenhouse_extract_frame_fallback (d : Driver) (ctx : ParseContext)
    (s : String) (t : Nat) (hf : ctx.frame = true)
    (h1 : (extract_element d ctx s t).found = false) :
    greenhouse_extract d ctx s t =
      (extract_element d ⟨false, ctx.parser_type⟩ s 2000,
        [⟨true, t⟩, ⟨false, 2000⟩]) := by
  unfold greenhouse_extract
  simp [hf, h1]

lemma greenhouse_extract_is_extract (d : Driver) (ctx : ParseContext)
    (s : String) (t : Nat) :
    ∃ ctx' t', (greenhouse_extract d ctx s t).1 = extract_element d ctx' s t' := by
  cases hf : ctx.frame with
  | false => exact ⟨ctx, t, by rw [greenhouse_extract_no_frame d ctx s t hf]⟩
  | true =>
      cases h1 : (extract_element d ctx s t).found with
      | true => exact ⟨ctx, t, by rw [greenhouse_extract_frame_found d ctx s t hf h1]⟩
      | false =>
          exact ⟨⟨false, ctx.parser_type⟩, 2000,
            by rw [greenhouse_extract_frame_fallback d ctx s t hf h1]⟩

lemma extract_one_is_extract (d : Driver) (pt : ParserType) (ctx : ParseContext)
    (s : String) :
    ∃ ctx' t', extract_one d pt ctx s = extract_element d ctx' s t' := by
  cases pt with
  | DEFAULT => exact ⟨ctx, 5000, rfl⟩
  | ANGULAR => exact ⟨ctx, 10000, rfl⟩
  | GREENHOUSE => exact greenhouse_extract_is_extract d ctx s 5000

lemma extract_element_discipline (d : Driver) (ctx : ParseContext) (s : String)
    (t : Nat) :
    ((extract_element d ctx s t).found = false →
      (extract_element d ctx s t).text_content = none ∧
      (extract_element d ctx s t).html_content = none) ∧
    ((extract_element d ctx s t).found = true →
      (extract_element d ctx s t).error_message = none) := by
  unfold extract_element
  cases target_query d ctx s t <;> simp

lemma parse_ok_mem (d : Driver) (pt : ParserType) (selectors : List String)
    (rs : List ElementResult) (h : parse d pt selectors = .ok rs)
    (r : ElementResult) (hr : r ∈ rs) :
    ∃ s, r = extract_one d pt (setup d pt) s := by
  unfold parse at h
  cases hw : wait_err d pt (setup d pt) with
  | some m =>
      rw [hw] at h
      cases selectors with
      | nil =>
          simp [backfill_results] at h
          subst h
          simp at hr
      | cons s rest => simp [backfill_results] at h
  | none =>
      rw [hw] at h
      simp only [Except.ok.injEq] at h
      subst h
      obtain ⟨s, _, hf⟩ := List.mem_map.mp hr
      exact ⟨s, hf.symm⟩

/-- A driver whose element queries all raise a driver-level error, used
to witness error conversion. -/
def err_query_driver : Driver :=
  ⟨.ok, .noContainer "no iframe", none, none,
    fun _ _ => .queryErr "frame was detached",
    fun _ _ => .queryErr "Timeout 5000ms exceeded"⟩

/-- A driver whose navigation fails hard (DNS-style error). -/
def nav_fail_driver : Driver :=
  ⟨.hardErr "net::ERR_NAME_NOT_RESOLVED", .noContainer "timeout", none, none,
    fun _ _ => .noElement, fun _ _ => .noElement⟩

/-- A driver that obtains the Greenhouse frame but whose queries all
find nothing, in the frame and in the main page alike. -/
def frame_miss_driver : Driver :=
  ⟨.ok, .frameObtained, none, none,
    fun _ _ => .noElement, fun _ _ => .noElement⟩

/-- A driver on which the Greenhouse container lookup finds no
container, while main-page queries succeed. -/
def no_container_driver : Driver :=
  ⟨.ok, .noContainer "Timeout 5000ms exceeded waiting for #grnhse_iframe",
    none, none,
    fun _ _ => .foundElem "frame text" "<p>frame</p>",
    fun _ _ => .foundElem "body text" "<p>body</p>"⟩

/-- A placeholder result used only to take the head of a concrete,
provably nonempty result list in witnesses. -/
def dummy_result : ElementResult := ⟨"", true, none, none, none, ""⟩

/-- C2: per-selector extraction never propagates a failure: it is a
total function of the driver's answer, and on a no-match answer or a
raised driver error it returns `found = false` with a populated,
human-readable error message (the raised error's own message, or
"Element not found"), so a failing selector yields a result rather than
an exception that could abort the remaining selectors. -/
theorem extract_failure_becomes_result (d : Driver) (ctx : ParseContext)
    (s : String) (t : Nat) :
    ((extract_element d ctx s t).found = false →
      (extract_element d ctx s t).error_message.isSome = true) ∧
    (∀ m, target_query d ctx s t = QueryResult.queryErr m →
      (extract_element d ctx s t).found = false ∧
      (extract_element d ctx s t).error_message = some m) ∧
    (target_query d ctx s t = QueryResult.noElement →
      (extract_element d ctx s t).found = false ∧
      (extract_element d ctx s t).error_message = some "Element not found") := by
  unfold extract_element
  cases hq : target_query d ctx s t <;> simp [hq]

/-- Witness for C2: a raised driver error on the main page becomes a
`found = false` result carrying the error's message. -/
theorem extract_failure_becomes_result_witness :
    (extract_element err_query_driver ⟨false, .DEFAULT⟩ "h1" 5000).found = false ∧
    (extract_element err_query_driver ⟨false, .DEFAULT⟩ "h1" 5000).error_message
      = some "Timeout 5000ms exceeded" :=
  (extract_failure_becomes_result err_query_driver ⟨false, .DEFAULT⟩ "h1" 5000).2.1
    "Timeout 5000ms exceeded" rfl

/-- C3: Greenhouse two-tier fallback.  With a frame in the context, the
frame is queried first with the full caller timeout and, if that
attempt does not find the element, the same selector is retried against
the main document (with timeout 2000) before the outcome is returned:
when both targets fail, the outcome has `found = false` and exactly the
two query attempts, frame then main document, were made.  Without a
frame, the extraction is exactly the base engine's single attempt. -/
theorem greenhouse_two_tier_fallback (d : Driver) (ctx : ParseContext)
    (s : String) (t : Nat) :
    (ctx.frame = false →
      greenhouse_extract d ctx s t = (extract_element d ctx s t, [⟨false, t⟩])) ∧
    (ctx.frame = true →
      (extract_element d ctx s t).found = false →
      (extract_element d ⟨false, ctx.parser_type⟩ s 2000).found = false →
      (greenhouse_extract d ctx s t).1.found = false ∧
      (greenhouse_extract d ctx s t).2 = [⟨true, t⟩, ⟨false, 2000⟩]) := by
  refine ⟨fun h => greenhouse_extract_no_frame d ctx s t h, fun hf h1 h2 => ?_⟩
  rw [greenhouse_extract_frame_fallback d ctx s t hf h1]
  exact ⟨h2, rfl⟩

/-- Witness for C3: with a frame present and the selector in neither
target, the outcome is `found = false` after the frame attempt and the
main-document attempt. -/
theorem greenhouse_two_tier_fallback_witness :
    (greenhouse_extract frame_miss_driver ⟨true, .GREENHOUSE⟩ "#job" 5000).1.found
      = false ∧
    (greenhouse_extract frame_miss_driver ⟨true, .GREENHOUSE⟩ "#job" 5000).2 =
      [⟨true, 5000⟩, ⟨false, 2000⟩] :=
  (greenhouse_two_tier_fallback frame_miss_driver ⟨true, .GREENHOUSE⟩ "#job" 5000).2
    rfl (by decide) (by decide)

/-- C4: a hard (non-timeout) navigation failure terminates the run
early with one uniform failure outcome per requested selector —
`found = false`, a "Navigation failed" message, and the navigation-error
context `"error"`.  The right-hand side depends on neither the query
oracle nor the parse pipeline, so no per-selector extraction is
attempted. -/
theorem navigation_failure_uniform (d : Driver) (pt : ParserType)
    (selectors : List String) (m : String) (h : d.nav = NavResult.hardErr m) :
    test_html_selectors d pt selectors =
      selectors.map (fun s =>
        ⟨s, false, none, none, some ("Navigation failed: " ++ m), "error"⟩) := by
  unfold test_html_selectors
  rw [h]

/-- Witness for C4: an unreachable host gives every selector the
uniform navigation failure outcome. -/
theorem navigation_failure_uniform_witness :
    test_html_selectors nav_fail_driver ParserType.GREENHOUSE ["#a", "#b"] =
      ["#a", "#b"].map (fun s =>
        ⟨s, false, none, none,
          some ("Navigation failed: " ++ "net::ERR_NAME_NOT_RESOLVED"), "error"⟩) :=
  navigation_failure_uniform nav_fail_driver ParserType.GREENHOUSE ["#a", "#b"]
    "net::ERR_NAME_NOT_RESOLVED" rfl

lemma run_mem_shape (d : Driver) (pt : ParserType) (selectors : List String)
    (r : ElementResult) (hr : r ∈ test_html_selectors d pt selectors) :
    (∃ s, r = extract_one d pt (setup d pt) s) ∨
    (∃ s msg, r = ⟨s, false, none, none, some msg, "error"⟩) := by
  unfold test_html_selectors at hr
  cases hnav : d.nav with
  | hardErr m =>
      rw [hnav] at hr
      obtain ⟨s, _, hf⟩ := List.mem_map.mp hr
      exact Or.inr ⟨s, "Navigation failed: " ++ m, hf.symm⟩
  | ok =>
      rw [hnav] at hr
      cases hp : parse d pt selectors with
      | ok rs =>
          rw [hp] at hr
          exact Or.inl (parse_ok_mem d pt selectors rs hp r hr)
      | error e =>
          rw [hp] at hr
          obtain ⟨s, _, hf⟩ := List.mem_map.mp hr
          exact Or.inr ⟨s, "Unexpected error: " ++ e, hf.symm⟩
  | timeout =>
      rw [hnav] at hr
      cases hp : parse d pt selectors with
      | ok rs =>
          rw [hp] at hr
          exact Or.inl (parse_ok_mem d pt selectors rs hp r hr)
      | error e =>
          rw [hp] at hr
          obtain ⟨s, _, hf⟩ := List.mem_map.mp hr
          exact Or.inr ⟨s, "Unexpected error: " ++ e, hf.symm⟩

/-- C5: the `sourceContext` of an outcome reflects the target actually
queried: the context name carries the `_frame` suffix exactly when the
attempt's context holds a frame handle; and in a Greenhouse run in which
the embed container is absent (so no frame handle was obtained), no
returned outcome carries the frame-derived context. -/
theorem source_context_reflects_target (d : Driver) (selectors : List String)
    (hs : d.greenhouseSetup ≠ GreenhouseSetupResult.frameObtained) :
    (∀ ctx : ParseContext,
      get_context_name ctx = ctx.parser_type.value ++ "_frame" ↔ ctx.frame = true) ∧
    (∀ r ∈ test_html_selectors d ParserType.GREENHOUSE selectors,
      r.context ≠ "greenhouse_frame") := by
  constructor
  · rintro ⟨f, p⟩
    cases f with
    | true => simp [get_context_name]
    | false => cases p <;> simp [get_context_name] <;> decide
  · intro r hr
    have hsetup : setup d ParserType.GREENHOUSE = ⟨false, .GREENHOUSE⟩ := by
      unfold setup
      cases hgs : d.greenhouseSetup with
      | frameObtained => exact absurd hgs hs
      | containerNoFrame => rfl
      | noContainer m => rfl
    rcases run_mem_shape d ParserType.GREENHOUSE selectors r hr with
      ⟨s, hr1⟩ | ⟨s, msg, hr2⟩
    · subst hr1
      rw [hsetup]
      simp only [extract_one]
      rw [greenhouse_extract_no_frame d ⟨false, .GREENHOUSE⟩ s 5000 rfl,
        extract_element_context]
      decide
    · subst hr2
      show ("error" : String) ≠ "greenhouse_frame"
      decide

/-- Witness for C5: a Greenhouse run whose container lookup timed out
yields an outcome whose context is not the frame-derived name. -/
theorem source_context_reflects_target_witness :
    ((test_html_selectors no_container_driver ParserType.GREENHOUSE
        ["#content"]).headD dummy_result).context ≠ "greenhouse_frame" :=
  (source_context_reflects_target no_container_driver ["#content"] (by decide)).2
    ((test_html_selectors no_container_driver ParserType.GREENHOUSE
        ["#content"]).headD dummy_result) (by decide)

/-- C6: whenever the Greenhouse extraction called from the pipeline
(which passes the default per-selector timeout, 5000) makes two query
attempts — i.e. the frame attempt failed and the main-document fallback
ran — the fallback's timeout is strictly smaller than the primary frame
attempt's timeout. -/
theorem fallback_timeout_strictly_smaller (d : Driver) (ctx : ParseContext)
    (s : String) (a1 a2 : QueryAttempt)
    (h : (greenhouse_extract d ctx s 5000).2 = [a1, a2]) :
    a2.timeout < a1.timeout := by
  cases hf : ctx.frame with
  | false =>
      rw [greenhouse_extract_no_frame d ctx s 5000 hf] at h
      simp at h
  | true =>
      cases h1 : (extract_element d ctx s 5000).found with
      | true =>
          rw [greenhouse_extract_frame_found d ctx s 5000 hf h1] at h
          simp at h
      | false =>
          rw [greenhouse_extract_frame_fallback d ctx s 5000 hf h1] at h
          simp only [List.cons.injEq, and_true] at h
          obtain ⟨ha1, ha2⟩ := h
          subst ha1
          subst ha2
          decide

/-- Witness for C6: with the frame present and the selector absent from
both targets, the two recorded attempts use timeouts 5000 then 2000. -/
theorem fallback_timeout_strictly_smaller_witness :
    QueryAttempt.timeout ⟨false, 2000⟩ < QueryAttempt.timeout ⟨true, 5000⟩ :=
  fallback_timeout_strictly_smaller frame_miss_driver ⟨true, .GREENHOUSE⟩ "#app"
    ⟨true, 5000⟩ ⟨false, 2000⟩ (by decide)

/-- C7: field-population invariant of every outcome the system
produces: for the base extraction operation at any context and timeout,
and for every outcome of a full run, `text_content` / `html_content`
are populated only when `found = true`, and `error_message` is
populated only when `found = false`. -/
theorem outcome_field_population (d : Driver) (pt : ParserType)
    (selectors : List String) :
    (∀ (ctx : ParseContext) (s : String) (t : Nat),
      ((extract_element d ctx s t).found = false →
        (extract_element d ctx s t).text_content = none ∧
        (extract_element d ctx s t).html_content = none) ∧
      ((extract_element d ctx s t).found = true →
        (extract_element d ctx s t).error_message = none)) ∧
    (∀ r ∈ test_html_selectors d pt selectors,
      (r.found = false → r.text_content = none ∧ r.html_content = none) ∧
      (r.found = true → r.error_message = none)) := by
  refine ⟨fun ctx s t => extract_element_discipline d ctx s t, ?_⟩
  intro r hr
  rcases run_mem_shape d pt selectors r hr with ⟨s, hr1⟩ | ⟨s, msg, hr2⟩
  · subst hr1
    obtain ⟨ctx', t', he⟩ := extract_one_is_extract d pt (setup d pt) s
    rw [he]
    exact extract_element_discipline d ctx' s t'
  · subst hr2
    simp

/-- Witness for C7: the outcome of a run with a hard navigation failure
has `found = false` and empty content fields. -/
theorem outcome_field_population_witness :
    ((test_html_selectors nav_fail_driver ParserType.DEFAULT ["#main"]).headD
        dummy_result).text_content = none ∧
    ((test_html_selectors nav_fail_driver ParserType.DEFAULT ["#main"]).headD
        dummy_result).html_content = none :=
  ((outcome_field_population nav_fail_driver ParserType.DEFAULT ["#main"]).2
      ((test_html_selectors nav_fail_driver ParserType.DEFAULT ["#main"]).headD
        dummy_result) (by decide)).1 (by decide)

/-- C8: determinism of the pipeline against a fixed page state: two
runs whose drivers answer identically — same navigation outcome, same
iframe-lookup outcome, same wait behavior, and pointwise-equal answers
to every frame and page query — produce outcome lists with identical
`found` and `text_content` fields entry by entry. -/
theorem run_deterministic (d1 d2 : Driver) (pt : ParserType)
    (selectors : List String)
    (hnav : d1.nav = d2.nav)
    (hsetup : d1.greenhouseSetup = d2.greenhouseSetup)
    (hpw : d1.pageWaitErr = d2.pageWaitErr)
    (hfw : d1.frameWaitErr = d2.frameWaitErr)
    (hfq : ∀ s t, d1.frameQuery s t = d2.frameQuery s t)
    (hpq : ∀ s t, d1.pageQuery s t = d2.pageQuery s t) :
    (test_html_selectors d1 pt selectors).map (fun r => (r.found, r.text_content)) =
      (test_html_selectors d2 pt selectors).map (fun r => (r.found, r.text_content)) := by
  have hd : d1 = d2 := by
    obtain ⟨n1, g1, p1, f1, fq1, pq1⟩ := d1
    obtain ⟨n2, g2, p2, f2, fq2, pq2⟩ := d2
    simp only [Driver.mk.injEq]
    exact ⟨hnav, hsetup, hpw, hfw,
      funext fun s => funext fun t => hfq s t,
      funext fun s => funext fun t => hpq s t⟩
  rw [hd]

/-- Witness for C8: a concrete static page state, queried twice, gives
entrywise-identical `found` and `text_content` fields. -/
theorem run_deterministic_witness :
    (test_html_selectors no_container_driver ParserType.DEFAULT ["p"]).map
        (fun r => (r.found, r.text_content)) =
      (test_html_selectors no_container_driver ParserType.DEFAULT ["p"]).map
        (fun r => (r.found, r.text_content)) :=
  run_deterministic no_container_driver no_container_driver ParserType.DEFAULT
    ["p"] rfl rfl rfl rfl (fun _ _ => rfl) (fun _ _ => rfl)
